import Mathlib

/-!
Shallow embedding of `src/main.py`, a Telegram bot that relays IMEI-check
requests to a remote HTTP API.  Pure data and the request/response logic are
translated directly; the network is modelled as an oracle function from
requests to results, and every outbound message or HTTP request the handlers
would emit is collected in an explicit trace.
-/

namespace TelegramBot

/-- JSON values, as produced by `response.json()` and consumed by
`json.dumps` in `src/main.py`. -/
inductive Json where
  | null : Json
  | bool : Bool → Json
  | num : Int → Json
  | str : String → Json
  | arr : List Json → Json
  | obj : List (String × Json) → Json
deriving Repr, Inhabited

/-- Source `src/main.py:23` — `MODE_LIVE = "live"`. -/
def MODE_LIVE : String := "live"

/-- Source `src/main.py:24` — `MODE_SANDBOX = "sandbox"`. -/
def MODE_SANDBOX : String := "sandbox"

/-- A string of `n` spaces, for `json.dumps` indentation. -/
def spaces (n : Nat) : String := String.mk (List.replicate n ' ')

/-- One lowercase hexadecimal digit. -/
def hexDigit (n : Nat) : Char :=
  if n < 10 then Char.ofNat (48 + n) else Char.ofNat (87 + n)

/-- Escape one character the way Python's `json.dumps` does with
`ensure_ascii=False`: backslash, double quote and control characters are
escaped, everything else passes through verbatim. -/
def escapeChar (c : Char) : String :=
  if c = '"' then "\\\""
  else if c = '\\' then "\\\\"
  else if c = '\n' then "\\n"
  else if c = '\t' then "\\t"
  else if c = '\r' then "\\r"
  else if c.toNat = 8 then "\\b"
  else if c.toNat = 12 then "\\f"
  else if c.toNat < 32 then
    "\\u00" ++ String.mk [hexDigit (c.toNat / 16), hexDigit (c.toNat % 16)]
  else String.singleton c

/-- Escape a whole string for JSON output. -/
def jsonEscape (s : String) : String :=
  String.join (s.toList.map escapeChar)

/-- A JSON string literal, quoted and escaped. -/
def jsonQuote (s : String) : String := "\"" ++ jsonEscape s ++ "\""

mutual

/-- Python `json.dumps(v, indent=4, ensure_ascii=False)` at nesting level `lvl`
(`src/main.py:101`). -/
def jsonDumpsAt (lvl : Nat) : Json → String
  | .null => "null"
  | .bool true => "true"
  | .bool false => "false"
  | .num n => toString n
  | .str s => jsonQuote s
  | .arr [] => "[]"
  | .arr (x :: xs) =>
      "[\n" ++ spaces (4 * (lvl + 1)) ++ jsonDumpsAt (lvl + 1) x ++
        jsonDumpsItems (lvl + 1) xs ++ "\n" ++ spaces (4 * lvl) ++ "]"
  | .obj [] => "\x7b\x7d"
  | .obj (f :: fs) =>
      "\x7b\n" ++ spaces (4 * (lvl + 1)) ++ jsonDumpsField (lvl + 1) f ++
        jsonDumpsFields (lvl + 1) fs ++ "\n" ++ spaces (4 * lvl) ++ "\x7d"

/-- One `"key": value` pair of an object. -/
def jsonDumpsField (lvl : Nat) : String × Json → String
  | (k, v) => jsonQuote k ++ ": " ++ jsonDumpsAt lvl v

/-- The remaining array items, each preceded by `",\n"` and indentation. -/
def jsonDumpsItems (lvl : Nat) : List Json → String
  | [] => ""
  | x :: xs => ",\n" ++ spaces (4 * lvl) ++ jsonDumpsAt lvl x ++ jsonDumpsItems lvl xs

/-- The remaining object fields, each preceded by `",\n"` and indentation. -/
def jsonDumpsFields (lvl : Nat) : List (String × Json) → String
  | [] => ""
  | f :: fs => ",\n" ++ spaces (4 * lvl) ++ jsonDumpsField lvl f ++ jsonDumpsFields lvl fs

end

/-- Top-level `json.dumps(response_data, indent=4, ensure_ascii=False)`. -/
def jsonDumps (v : Json) : String := jsonDumpsAt 0 v

/-- The environment-derived configuration of `src/main.py:26-32`:
`API_HOST`, `API_PORT`, `API_TOKEN` and the boolean `TEST` flag. -/
structure Config where
  api_host : String
  api_port : String
  api_token : String
  test : Bool
deriving Repr, DecidableEq

/-- Source `src/main.py:26` — `BASE_API = f"http://{API_HOST}:{API_PORT}/api/"`. -/
def BASE_API (cfg : Config) : String :=
  "http://" ++ cfg.api_host ++ ":" ++ cfg.api_port ++ "/api/"

/-- Source `src/main.py:27` — the live endpoint `BASE_API + "check-imei"`. -/
def API_URL_LIVE (cfg : Config) : String := BASE_API cfg ++ "check-imei"

/-- Source `src/main.py:28` — the sandbox endpoint `BASE_API + "check-imei-sandbox"`. -/
def API_URL_SANDBOX (cfg : Config) : String := BASE_API cfg ++ "check-imei-sandbox"

/-- The `ssl` argument passed to `aiohttp.TCPConnector`: Python `None`
(library default, certificates verified) or `False` (verification off). -/
inductive PySsl where
  | pyNone : PySsl
  | pyFalse : PySsl
deriving Repr, DecidableEq

/-- Source `src/main.py:71` — `ssl_context = False if TEST else None`. -/
def ssl_context (test : Bool) : PySsl :=
  if test then PySsl.pyFalse else PySsl.pyNone

/-- Source `src/main.py:75` — the `ssl` argument actually given to the connector:
`aiohttp.TCPConnector(ssl=None)`, a literal `None` regardless of the
`TEST` flag in scope. -/
def connectorSsl (_test : Bool) : PySsl := PySsl.pyNone

/-- One outbound HTTP request as issued by `session.post` in
`src/main.py:77-79`: method, target URL, the `token` header, the query
parameters, and the total timeout (`ClientTimeout(total=5)`). -/
structure HttpRequest where
  method : String
  url : String
  token : String
  params : List (String × String)
  timeout : Nat
deriving Repr, DecidableEq

/-- The outcome of one HTTP attempt: a response with a status and a body
(`some j` when the body parses as JSON, `none` when `response.json()`
raises), or a transport-level exception. -/
inductive HttpResult where
  | response : Nat → Option Json → HttpResult
  | transportError : HttpResult

/-- The request value constructed by `send_api_request`'s single
`session.post(url, headers={"token": TOKEN}, params=data)` call under
`ClientTimeout(total=5)`. -/
def mkRequest (cfg : Config) (url : String) (data : List (String × String)) :
    HttpRequest :=
  { method := "POST", url := url, token := cfg.api_token, params := data,
    timeout := 5 }

/-- The synthesized error record `{"error": msg}`. -/
def errJson (msg : String) : Json := Json.obj [("error", Json.str msg)]

/-- Source `src/main.py:68-87` — `send_api_request(url, data)`.  The network is an
oracle `http`; the function returns the relay response together with the
trace of requests issued (always exactly the one `session.post`).
Status 200 with a JSON body returns the parsed body; status 200 whose body
fails to parse raises inside the `try` and is caught by the same
`except Exception` as transport errors; any other status returns
`{"error": f"Request failed with status {response.status}"}`; a transport
exception returns `{"error": "Failed to connect to API"}`. -/
def send_api_request (cfg : Config) (http : HttpRequest → HttpResult)
    (url : String) (data : List (String × String)) : Json × List HttpRequest :=
  let req := mkRequest cfg url data
  match http req with
  | HttpResult.response status body =>
      if status = 200 then
        match body with
        | some payload => (payload, [req])
        | none => (errJson "Failed to connect to API", [req])
      else
        (errJson ("Request failed with status " ++ toString status), [req])
  | HttpResult.transportError => (errJson "Failed to connect to API", [req])

/-- Source `src/main.py:53-65` — `button_handler` stores `query.data` verbatim as
`context.user_data["selected_mode"]` and edits the message only for the
two known modes.  Returns the new stored mode and the edited texts. -/
def button_handler (callback_data : String) : Option String × List String :=
  (some callback_data,
    if callback_data = MODE_LIVE then
      ["Вы выбрали Режим " ++ MODE_LIVE ++ ". Введите imei:"]
    else if callback_data = MODE_SANDBOX then
      ["Вы выбрали Режим " ++ MODE_SANDBOX ++ ". Введите imei:"]
    else [])

/-- Everything `process_data` emits in one invocation: the messages sent
to the user, the HTTP requests issued, and the session mode afterwards. -/
structure ProcessResult where
  messages : List String
  requests : List HttpRequest
  newMode : Option String
deriving Repr, DecidableEq

/-- Source `src/main.py:90-105` — `process_data`.  `selected_mode` is
`context.user_data.get("selected_mode")` (`none` when never set).  The
guard `if not selected_mode` is Python falsiness: it reprompts on `None`
and on the empty string.  Otherwise it picks the live URL exactly when the
mode equals `MODE_LIVE`, calls `send_api_request` with `{"imei": user_input}`,
and then loops `for d in formatted_response`, sending one message per
character of the `indent=4` JSON dump. -/
def process_data (cfg : Config) (http : HttpRequest → HttpResult)
    (selected_mode : Option String) (user_input : String) : ProcessResult :=
  match selected_mode with
  | none =>
      { messages := ["Сначала выберите режим работы."], requests := [],
        newMode := selected_mode }
  | some m =>
      if m.isEmpty then
        { messages := ["Сначала выберите режим работы."], requests := [],
          newMode := selected_mode }
      else
        let api_url := if m = MODE_LIVE then API_URL_LIVE cfg else API_URL_SANDBOX cfg
        let res := send_api_request cfg http api_url [("imei", user_input)]
        let formatted_response := jsonDumps res.1
        { messages := formatted_response.toList.map
            (fun d => "Ответ от API:\n<code>" ++ String.singleton d ++ "</code>"),
          requests := res.2,
          newMode := selected_mode }

/-- The per-conversation session state: `context.user_data["selected_mode"]`
for each conversation id. -/
def Store : Type := String → Option String

/-- The spec's `set_mode(conversation_id, mode)`: the assignment
`context.user_data["selected_mode"] = query.data` of `src/main.py:57`,
scoped to one conversation's `user_data`. -/
def set_mode (s : Store) (c m : String) : Store :=
  fun c2 => if c2 = c then some m else s c2

/-- The spec's `get_mode(conversation_id)`: the read
`context.user_data.get("selected_mode")` of `src/main.py:93`. -/
def get_mode (s : Store) (c : String) : Option String := s c

/-- One inbound bot interaction: a mode-selection callback or a free-text
message, each tagged with its conversation id. -/
inductive BotEvent where
  | buttonPress : String → String → BotEvent
  | textMessage : String → String → BotEvent
deriving Repr, DecidableEq

/-- Whether an event is a mode-selection callback for conversation `c`
(the only kind of event that writes `selected_mode`). -/
def selectsModeFor (c : String) : BotEvent → Bool
  | BotEvent.buttonPress c2 _ => c2 = c
  | BotEvent.textMessage _ _ => false

/-- How one inbound event transforms the session store: `button_handler`
stores its callback payload for its conversation, `process_data` leaves
the store at whatever `newMode` it reports (which is the mode it read). -/
def stepEvent (cfg : Config) (http : HttpRequest → HttpResult) (s : Store) :
    BotEvent → Store
  | BotEvent.buttonPress c d => fun c2 => if c2 = c then (button_handler d).1 else s c2
  | BotEvent.textMessage c t =>
      fun c2 => if c2 = c then (process_data cfg http (s c) t).newMode else s c2

/-- Folding a list of inbound events over the session store. -/
def runEvents (cfg : Config) (http : HttpRequest → HttpResult) :
    Store → List BotEvent → Store
  | s, [] => s
  | s, e :: es => runEvents cfg http (stepEvent cfg http s e) es

/-- A concrete configuration used to instantiate general theorems. -/
def cfg0 : Config :=
  { api_host := "example.org", api_port := "8080", api_token := "secret",
    test := false }

/-- An oracle on which every HTTP attempt fails at the transport level. -/
def httpDown : HttpRequest → HttpResult := fun _ => HttpResult.transportError

/-! ## General lemmas about the embedded handlers -/

/-- Every branch of `send_api_request` issues exactly the one request of the
single `session.post` call: the request trace is that singleton. -/
theorem send_api_request_requests (cfg : Config)
    (http : HttpRequest → HttpResult) (url : String)
    (data : List (String × String)) :
    (send_api_request cfg http url data).2 = [mkRequest cfg url data] := by
  simp only [send_api_request]
  cases hh : http (mkRequest cfg url data) with
  | response status body =>
      by_cases hs : status = 200 <;> cases body <;> simp [hh, hs]
  | transportError => simp [hh]

/-- `process_data` never writes the stored mode: the session mode after the
call is the mode it read. -/
theorem process_data_newMode_eq (cfg : Config)
    (http : HttpRequest → HttpResult) (sm : Option String) (t : String) :
    (process_data cfg http sm t).newMode = sm := by
  cases sm with
  | none => rfl
  | some m => by_cases hm : m.isEmpty <;> simp [process_data, hm]

/-- With a non-empty stored mode, `process_data` issues exactly the one
request of `send_api_request`, aimed by the `selected_mode == MODE_LIVE`
comparison. -/
theorem process_data_requests_eq (cfg : Config)
    (http : HttpRequest → HttpResult) (m t : String)
    (hm : m.isEmpty = false) :
    (process_data cfg http (some m) t).requests
      = [mkRequest cfg
          (if m = MODE_LIVE then API_URL_LIVE cfg else API_URL_SANDBOX cfg)
          [("imei", t)]] := by
  simp [process_data, hm, send_api_request_requests]

/-- A store position not selected for is untouched by a run of events. -/
theorem runEvents_preserves_mode (cfg : Config)
    (http : HttpRequest → HttpResult) (c : String) :
    ∀ (events : List BotEvent) (s : Store),
      (∀ e ∈ events, selectsModeFor c e = false) →
      runEvents cfg http s events c = s c := by
  intro events
  induction events with
  | nil => intro s _; rfl
  | cons e es ih =>
      intro s h
      have he : selectsModeFor c e = false := h e (List.mem_cons_self _ _)
      have hes : ∀ e2 ∈ es, selectsModeFor c e2 = false :=
        fun e2 h2 => h e2 (List.mem_cons_of_mem _ h2)
      cases e with
      | buttonPress c2 d =>
          have hc : ¬c2 = c := by simpa [selectsModeFor] using he
          have hc' : ¬c = c2 := fun hcc => hc hcc.symm
          rw [runEvents, ih _ hes]
          simp [stepEvent, hc']
      | textMessage c2 t =>
          rw [runEvents, ih _ hes]
          by_cases hc : c = c2
          · subst hc; simp [stepEvent, process_data_newMode_eq]
          · simp [stepEvent, hc]

/-! ## The claims -/

/-- C1: whenever the single HTTP attempt of `send_api_request` yields status
200 with a body that parses as JSON, the function returns that parsed body
unchanged as the payload, alongside the one-request trace. -/
theorem send_api_request_returns_parsed_body (cfg : Config)
    (http : HttpRequest → HttpResult) (url : String)
    (data : List (String × String)) (j : Json)
    (hr : http (mkRequest cfg url data) = HttpResult.response 200 (some j)) :
    send_api_request cfg http url data = (j, [mkRequest cfg url data]) := by
  simp [send_api_request, hr]

/-- Witness for C1 at a concrete oracle answering 200 with a JSON body. -/
theorem send_api_request_returns_parsed_body_witness :
    send_api_request cfg0
      (fun _ => HttpResult.response 200 (some (Json.str "ok"))) "u"
      [("imei", "1")]
      = (Json.str "ok", [mkRequest cfg0 "u" [("imei", "1")]]) :=
  send_api_request_returns_parsed_body cfg0 _ "u" [("imei", "1")]
    (Json.str "ok") rfl

/-- C2: whenever the single HTTP attempt yields any status other than 200,
`send_api_request` returns exactly the record
`{"error": "Request failed with status <code>"}` for that status, and the
request trace is the one attempt (no retry). -/
theorem send_api_request_non_200_status (cfg : Config)
    (http : HttpRequest → HttpResult) (url : String)
    (data : List (String × String)) (status : Nat) (body : Option Json)
    (hr : http (mkRequest cfg url data) = HttpResult.response status body)
    (hs : status ≠ 200) :
    send_api_request cfg http url data
      = (errJson ("Request failed with status " ++ toString status),
         [mkRequest cfg url data]) := by
  simp [send_api_request, hr, hs]

/-- Witness for C2 at a concrete oracle answering 404. -/
theorem send_api_request_non_200_status_witness :
    send_api_request cfg0 (fun _ => HttpResult.response 404 none) "u"
      [("imei", "1")]
      = (errJson "Request failed with status 404",
         [mkRequest cfg0 "u" [("imei", "1")]]) :=
  send_api_request_non_200_status cfg0 _ "u" [("imei", "1")] 404 none rfl
    (by decide)

/-- C3: whenever the single HTTP attempt raises a transport-level exception,
`send_api_request` returns exactly `{"error": "Failed to connect to API"}`
(the `except Exception` handler swallows the exception), and the request
trace is the one attempt. -/
theorem send_api_request_transport_failure (cfg : Config)
    (http : HttpRequest → HttpResult) (url : String)
    (data : List (String × String))
    (hr : http (mkRequest cfg url data) = HttpResult.transportError) :
    send_api_request cfg http url data
      = (errJson "Failed to connect to API", [mkRequest cfg url data]) := by
  simp [send_api_request, hr]

/-- Witness for C3 at a concrete oracle that always fails to connect. -/
theorem send_api_request_transport_failure_witness :
    send_api_request cfg0 httpDown "u" [("imei", "1")]
      = (errJson "Failed to connect to API",
         [mkRequest cfg0 "u" [("imei", "1")]]) :=
  send_api_request_transport_failure cfg0 httpDown "u" [("imei", "1")] rfl

/-- C4: with no selected mode in the session state, `process_data` sends
exactly the sequencing reprompt, issues zero HTTP requests, and leaves the
session state unchanged (still unset); hence a relay request is only ever
constructed when a mode is set. -/
theorem process_data_unset_mode (cfg : Config)
    (http : HttpRequest → HttpResult) (t : String) :
    process_data cfg http none t
      = { messages := ["Сначала выберите режим работы."], requests := [],
          newMode := none } := rfl

/-- C5: for each of the two known modes and any submitted text (the empty
string included), `process_data` issues exactly one POST — to the live
endpoint for mode "live", to the sandbox endpoint for mode "sandbox" —
carrying the submitted text verbatim as the `imei` parameter. -/
theorem process_data_routes_by_mode (cfg : Config)
    (http : HttpRequest → HttpResult) (t : String) :
    (process_data cfg http (some MODE_LIVE) t).requests
      = [{ method := "POST", url := API_URL_LIVE cfg, token := cfg.api_token,
           params := [("imei", t)], timeout := 5 }] ∧
    (process_data cfg http (some MODE_SANDBOX) t).requests
      = [{ method := "POST", url := API_URL_SANDBOX cfg,
           token := cfg.api_token, params := [("imei", t)], timeout := 5 }] := by
  constructor <;>
    rw [process_data_requests_eq cfg http _ t (by decide)] <;>
    simp [mkRequest, MODE_LIVE, MODE_SANDBOX]

/-- C6 (the character-loop bug): at a concrete relay outcome, `process_data`
sends one message per character of the `indent=4` JSON dump of the relay
response — here 43 messages for the 43-character formatted error record —
instead of a single message with the whole formatted text. -/
theorem process_data_per_character_messages :
    (process_data cfg0 httpDown (some MODE_LIVE) "490154203237518").messages
      = (jsonDumps (errJson "Failed to connect to API")).toList.map
          (fun d => "Ответ от API:\n<code>" ++ String.singleton d ++ "</code>") ∧
    (process_data cfg0 httpDown (some MODE_LIVE) "490154203237518").messages.length
      = 43 :=
  ⟨rfl, rfl⟩

/-- C7 (the dead `ssl_context` bug): the `ssl` argument actually passed to
the connector is the literal `None` for both values of the TEST flag, while
the computed-but-unused `ssl_context` would have been `False` (relaxed)
under TEST; so certificate verification is not in fact controlled by the
flag. -/
theorem connectorSsl_constant :
    connectorSsl true = PySsl.pyNone ∧ connectorSsl false = PySsl.pyNone ∧
    ssl_context true = PySsl.pyFalse ∧ ssl_context false = PySsl.pyNone :=
  ⟨rfl, rfl, rfl, rfl⟩

/-- C8: immediately after `set_mode c m` the stored mode of conversation `c`
is `m` (overwriting whatever the prior store held), and it remains `m`
across any further run of events none of which selects a mode for `c`. -/
theorem get_mode_after_set_mode (cfg : Config)
    (http : HttpRequest → HttpResult) (s : Store) (c m : String)
    (events : List BotEvent)
    (h : ∀ e ∈ events, selectsModeFor c e = false) :
    get_mode (set_mode s c m) c = some m ∧
    get_mode (runEvents cfg http (set_mode s c m) events) c = some m := by
  have hbase : get_mode (set_mode s c m) c = some m := by
    simp [get_mode, set_mode]
  refine ⟨hbase, ?_⟩
  rw [get_mode, runEvents_preserves_mode cfg http c events _ h]
  exact hbase

/-- Witness for C8: a store with a prior value, one unrelated text message
and one unrelated button press in between. -/
theorem get_mode_after_set_mode_witness :
    get_mode (set_mode (fun _ => some "sandbox") "conv1" "live") "conv1"
        = some "live" ∧
    get_mode (runEvents cfg0 httpDown
        (set_mode (fun _ => some "sandbox") "conv1" "live")
        [BotEvent.textMessage "conv1" "490154203237518",
         BotEvent.buttonPress "conv2" "sandbox"]) "conv1" = some "live" :=
  get_mode_after_set_mode cfg0 httpDown (fun _ => some "sandbox") "conv1"
    "live" _ (by decide)

/-- C9 counterexample: the empty callback payload is stored verbatim as the
selected mode, and it differs from "live"; yet the text-handling path then
issues no request at all — it reprompts — so a stored mode other than
"live" is not always routed to the sandbox endpoint. -/
theorem empty_mode_stored_but_not_routed :
    (button_handler "").1 = some "" ∧ (MODE_LIVE = "" ↔ False) ∧
    process_data cfg0 httpDown (some "") "490154203237518"
      = { messages := ["Сначала выберите режим работы."], requests := [],
          newMode := some "" } :=
  ⟨rfl, by decide, rfl⟩

/-- C9 (amended): `button_handler` stores any callback payload verbatim, and
for every stored NON-EMPTY mode other than exactly "live" the text-handling
path issues its one POST to the sandbox endpoint; a stored empty payload
instead triggers the sequencing reprompt and no request. -/
theorem button_verbatim_nonempty_sandbox (d : String) (cfg : Config)
    (http : HttpRequest → HttpResult) (m t : String)
    (hne : m ≠ "") (hnl : m ≠ MODE_LIVE) :
    (button_handler d).1 = some d ∧
    (process_data cfg http (some m) t).requests
      = [mkRequest cfg (API_URL_SANDBOX cfg) [("imei", t)]] := by
  refine ⟨rfl, ?_⟩
  have hm : m.isEmpty = false := by
    rw [Bool.eq_false_iff]
    intro hT
    exact hne ((String.isEmpty_iff m).1 hT)
  rw [process_data_requests_eq cfg http m t hm]
  simp [hnl]

/-- Witness for the amended C9 at the off-menu payload "weird". -/
theorem button_verbatim_nonempty_sandbox_witness :
    (button_handler "weird").1 = some "weird" ∧
    (process_data cfg0 httpDown (some "weird") "123").requests
      = [mkRequest cfg0 (API_URL_SANDBOX cfg0) [("imei", "123")]] :=
  button_verbatim_nonempty_sandbox "weird" cfg0 httpDown "weird" "123"
    (by decide) (by decide)

/-- C10: whenever the single HTTP attempt yields status 200 but the body
does not parse as JSON, `send_api_request` returns the transport-failure
record `{"error": "Failed to connect to API"}` — not a payload and not a
status-based error — because `response.json()` raises inside the same
`try`/`except Exception` as transport errors. -/
theorem send_api_request_200_unparseable_body (cfg : Config)
    (http : HttpRequest → HttpResult) (url : String)
    (data : List (String × String))
    (hr : http (mkRequest cfg url data) = HttpResult.response 200 none) :
    send_api_request cfg http url data
      = (errJson "Failed to connect to API", [mkRequest cfg url data]) := by
  simp [send_api_request, hr]

/-- Witness for C10 at a concrete oracle answering 200 with a non-JSON
body. -/
theorem send_api_request_200_unparseable_body_witness :
    send_api_request cfg0 (fun _ => HttpResult.response 200 none) "u"
      [("imei", "1")]
      = (errJson "Failed to connect to API",
         [mkRequest cfg0 "u" [("imei", "1")]]) :=
  send_api_request_200_unparseable_body cfg0 _ "u" [("imei", "1")] rfl

end TelegramBot
